import Mathlib

/-!
Shallow embedding of the core logic of the diet-log-tracker backend
(`src/backend/server.py`): the water ledger (`add_water`,
`remove_last_water_entry`), the profile/target calculator
(`update_profile`, `calculate_bmr`), the streak computation
(`calculate_streak`), the weekly aggregator (`get_weekly_stats`) and the
daily dashboard (`get_dashboard`).

Python floats are modelled as exact rationals (`ℚ`), Python ints as `ℤ`,
`None`-able values as `Option`.  The MongoDB store is modelled by passing
the relevant documents (or `Option` for a possibly absent document)
explicitly.  Calendar days are modelled as abstract day offsets (`ℕ`)
counted backwards from "today" where only the walking order matters, and
as opaque `String` day keys elsewhere.
-/

namespace DietLog

/-- Python `int()` applied to an exact rational: truncation toward zero. -/
def pyInt (q : ℚ) : ℤ := if q < 0 then -⌊-q⌋ else ⌊q⌋

/-- Python `round(x, 1)` applied to an exact rational: rounding to one
decimal place, ties going to the even tenth (banker's rounding). -/
def pyRound1 (q : ℚ) : ℚ :=
  let s := q * 10
  let f := ⌊s⌋
  let r : ℤ :=
    if (1:ℚ)/2 < s - f then f + 1
    else if s - f < (1:ℚ)/2 then f
    else if f % 2 = 0 then f else f + 1
  (r : ℚ) / 10

/-- Error outcomes raised by the modelled endpoints (HTTP 404 / 400). -/
inductive ApiError where
  | notFound
  | invalidInput
deriving DecidableEq, Repr

/-- One timestamped addition entry of a per-day water log (the server also
stores a UUID `id`, which no computation reads and which is omitted). -/
structure WaterEntry where
  amount_ml : ℤ
  time : String
deriving DecidableEq, Repr

/-- The per-(user, day) water-log document: a running total and the ordered
list of addition entries. -/
structure WaterRecord where
  total_ml : ℤ
  entries : List WaterEntry
deriving DecidableEq, Repr

/-- POST `/water-logs` (`add_water`, server.py:388-416) acting on the state
of one (user, day): `none` models an absent document.  The pydantic model
`WaterLogAdd` (server.py:107-109) declares `amount_ml : int` with no
positivity constraint, and the handler performs no validation, so the
operation is total over `ℤ`. -/
def add_water (s : Option WaterRecord) (amount_ml : ℤ) (time : String) : WaterRecord :=
  match s with
  | some existing =>
      { total_ml := existing.total_ml + amount_ml
        entries := existing.entries ++ [{ amount_ml := amount_ml, time := time }] }
  | none =>
      { total_ml := amount_ml
        entries := [{ amount_ml := amount_ml, time := time }] }

/-- DELETE `/water-logs/last` (`remove_last_water_entry`, server.py:419-449)
acting on the state of one (user, day).  A missing document or an empty
`entries` list raises 404; otherwise the last entry of the list is removed
and the total is decremented by its amount, floored at zero. -/
def remove_last_water_entry (s : Option WaterRecord) :
    Except ApiError (WaterRecord × WaterEntry) :=
  match s with
  | none => .error .notFound
  | some log =>
    match log.entries.getLast? with
    | none => .error .notFound
    | some removed =>
        .ok ({ total_ml := max 0 (log.total_ml - removed.amount_ml)
               entries := log.entries.dropLast }, removed)

/-- The water-ledger invariant stated in the spec: the stored running total
equals the sum of the amounts of the stored entries. -/
def WaterRecord.Inv (r : WaterRecord) : Prop :=
  r.total_ml = (r.entries.map WaterEntry.amount_ml).sum

instance (r : WaterRecord) : Decidable r.Inv :=
  inferInstanceAs (Decidable (_ = _))

/-- C2: the claim as stated is false: `add_water` accepts negative amounts
(no validation exists in the code), and on the reachable state built by
`add(-100)` then `add(300)` — which satisfies the invariant, total `200` —
the undo operation floors the total at `0` instead of decrementing by the
removed amount `300`, breaking the invariant (the remaining entries sum to
`-100`). -/
theorem water_invariant_break :
    (add_water (some (add_water none (-100) "t1")) 300 "t2").Inv ∧
    remove_last_water_entry (some (add_water (some (add_water none (-100) "t1")) 300 "t2"))
      = .ok (⟨0, [⟨-100, "t1"⟩]⟩, ⟨300, "t2"⟩) ∧
    ¬ (WaterRecord.Inv ⟨0, [⟨-100, "t1"⟩]⟩) ∧
    (0 : ℤ) ≠ 200 - 300 := by
  refine ⟨by decide, rfl, by decide, by decide⟩

/-- C2 (amended): the invariant `total_ml = Σ entries` holds for a freshly
created record, is preserved by every append, and is preserved by undo-last
— with the total decremented by exactly the removed entry's amount and
staying nonnegative — provided the record's entry amounts are nonnegative
(which the claim's floor-at-zero clause silently assumes). -/
theorem water_invariant_preservation :
    (∀ (a : ℤ) (t : String), (add_water none a t).Inv) ∧
    (∀ (r : WaterRecord) (a : ℤ) (t : String), r.Inv → (add_water (some r) a t).Inv) ∧
    (∀ (r r' : WaterRecord) (e : WaterEntry), r.Inv →
      (∀ x ∈ r.entries, 0 ≤ x.amount_ml) →
      remove_last_water_entry (some r) = .ok (r', e) →
      r'.Inv ∧ r'.total_ml = r.total_ml - e.amount_ml ∧ 0 ≤ r'.total_ml) := by
  refine ⟨fun a t => by simp [add_water, WaterRecord.Inv], ?_, ?_⟩
  · intro r a t hr
    simp only [add_water, WaterRecord.Inv] at *
    simp [hr]
  · intro r r' e hr hnn hok
    rcases hlast : r.entries.getLast? with _ | last
    · simp [remove_last_water_entry, hlast] at hok
    · have hne : r.entries ≠ [] := by
        intro h
        rw [h] at hlast
        simp at hlast
      simp only [remove_last_water_entry, hlast, Except.ok.injEq, Prod.mk.injEq] at hok
      obtain ⟨hr', he⟩ := hok
      have hsplit : r.entries.dropLast ++ [r.entries.getLast hne] = r.entries :=
        List.dropLast_append_getLast hne
      have hlast_eq : last = r.entries.getLast hne := by
        have := List.getLast?_eq_getLast r.entries hne
        rw [hlast] at this
        exact Option.some_injective _ this
      have hsum : (r.entries.map WaterEntry.amount_ml).sum
          = (r.entries.dropLast.map WaterEntry.amount_ml).sum + last.amount_ml := by
        conv_lhs => rw [← hsplit]
        simp [hlast_eq]
      have hdrop_nn : 0 ≤ (r.entries.dropLast.map WaterEntry.amount_ml).sum := by
        apply List.sum_nonneg
        intro x hx
        simp only [List.mem_map] at hx
        obtain ⟨y, hy, rfl⟩ := hx
        exact hnn y (List.dropLast_subset _ hy)
      have htot : r.total_ml - last.amount_ml
          = (r.entries.dropLast.map WaterEntry.amount_ml).sum := by
        rw [WaterRecord.Inv] at hr
        omega
      have hmax : max 0 (r.total_ml - last.amount_ml) = r.total_ml - last.amount_ml := by
        omega
      subst he
      subst hr'
      refine ⟨?_, ?_, ?_⟩
      · rw [WaterRecord.Inv]
        show max 0 (r.total_ml - last.amount_ml) = _
        rw [hmax]
        exact htot
      · show max 0 (r.total_ml - last.amount_ml) = _
        exact hmax
      · show (0 : ℤ) ≤ max 0 (r.total_ml - last.amount_ml)
        exact le_max_left 0 _

/-- C2 witness: the preservation theorem applied at concrete inputs. -/
theorem water_invariant_preservation_witness :
    (add_water none 500 "t1").Inv ∧
    (add_water (some ⟨500, [⟨500, "t1"⟩]⟩) 300 "t2").Inv ∧
    ((⟨500, [⟨500, "t1"⟩]⟩ : WaterRecord).Inv ∧
      (500 : ℤ) = 800 - 300 ∧ (0 : ℤ) ≤ 500) := by
  refine ⟨water_invariant_preservation.1 500 "t1",
    water_invariant_preservation.2.1 ⟨500, [⟨500, "t1"⟩]⟩ 300 "t2" (by decide),
    water_invariant_preservation.2.2 ⟨800, [⟨500, "t1"⟩, ⟨300, "t2"⟩]⟩
      ⟨500, [⟨500, "t1"⟩]⟩ ⟨300, "t2"⟩ (by decide) (by decide) rfl⟩

/-- C4: undo-last fails with NotFound exactly when the document is absent or
its entries list is empty; otherwise it removes exactly the last entry in
insertion order and floors the decremented total at zero.  The concrete
trace of the spec — `add(500)` then `add(300)` (timestamps deliberately out
of order to show insertion order is what counts), then undo — is included,
as are the two NotFound cases. -/
theorem undo_last_characterization :
    (∀ s : Option WaterRecord,
      (remove_last_water_entry s = .error .notFound ↔
        s = none ∨ ∃ r, s = some r ∧ r.entries = [])) ∧
    (∀ (r : WaterRecord) (rest : List WaterEntry) (e : WaterEntry),
      r.entries = rest ++ [e] →
      remove_last_water_entry (some r)
        = .ok (⟨max 0 (r.total_ml - e.amount_ml), rest⟩, e)) ∧
    add_water (some (add_water none 500 "10:00")) 300 "09:00"
      = ⟨800, [⟨500, "10:00"⟩, ⟨300, "09:00"⟩]⟩ ∧
    remove_last_water_entry (some ⟨800, [⟨500, "10:00"⟩, ⟨300, "09:00"⟩]⟩)
      = .ok (⟨500, [⟨500, "10:00"⟩]⟩, ⟨300, "09:00"⟩) ∧
    remove_last_water_entry (some ⟨0, []⟩) = .error .notFound ∧
    remove_last_water_entry none = .error .notFound := by
  refine ⟨?_, ?_, rfl, rfl, rfl, rfl⟩
  · intro s
    rcases s with _ | r
    · simp [remove_last_water_entry]
    · rcases hlast : r.entries.getLast? with _ | last
      · rw [List.getLast?_eq_none_iff] at hlast
        simp [remove_last_water_entry, hlast]
      · have hne : r.entries ≠ [] := by
          intro h
          rw [h] at hlast
          simp at hlast
        simp [remove_last_water_entry, List.getLast?_eq_getLast r.entries hne, hne]
  · intro r rest e hre
    simp [remove_last_water_entry, hre, List.getLast?_concat]

/-- C4 witness: the characterization applied at concrete inputs. -/
theorem undo_last_characterization_witness :
    (remove_last_water_entry (some ⟨700, []⟩) = .error .notFound ↔
      (some (⟨700, []⟩ : WaterRecord)) = none ∨
        ∃ r, (some (⟨700, []⟩ : WaterRecord)) = some r ∧ r.entries = []) ∧
    remove_last_water_entry (some ⟨800, [⟨500, "10:00"⟩, ⟨300, "09:00"⟩]⟩)
      = .ok (⟨max 0 (800 - 300), [⟨500, "10:00"⟩]⟩, ⟨300, "09:00"⟩) :=
  ⟨undo_last_characterization.1 (some ⟨700, []⟩),
    undo_last_characterization.2.1 ⟨800, [⟨500, "10:00"⟩, ⟨300, "09:00"⟩]⟩
      [⟨500, "10:00"⟩] ⟨300, "09:00"⟩ rfl⟩

/-- C5: the claim as stated is false: no positivity validation exists
(`WaterLogAdd` declares a plain `int` and `add_water` checks nothing), so a
non-positive amount is not rejected — `add(-100)` on an existing record
mutates it, and `add(0)` creates a record. -/
theorem add_water_accepts_nonpositive :
    add_water (some ⟨500, [⟨500, "t1"⟩]⟩) (-100) "t2"
      = ⟨400, [⟨500, "t1"⟩, ⟨-100, "t2"⟩]⟩ ∧
    add_water (some ⟨500, [⟨500, "t1"⟩]⟩) (-100) "t2" ≠ ⟨500, [⟨500, "t1"⟩]⟩ ∧
    add_water none 0 "t1" = ⟨0, [⟨0, "t1"⟩]⟩ := by
  refine ⟨rfl, by decide, rfl⟩

/-- C5 (amended): `add_water` succeeds for every integer amount, with no
validation and no upper bound: when the document is absent it creates one
with `total = amount` and a single entry, and when present it appends one
entry and adds the amount to the total. -/
theorem add_water_total_update :
    ∀ (s : Option WaterRecord) (a : ℤ) (t : String),
      (add_water s a t).total_ml
        = (match s with | none => a | some r => r.total_ml + a) ∧
      (add_water s a t).entries
        = (match s with | none => [] | some r => r.entries) ++ [⟨a, t⟩] := by
  intro s a t
  cases s <;> simp [add_water]

/-- The user-profile document fields consumed by the target calculator
(server.py:201-239): biometrics are `None`-able, the targets always exist
(registration writes defaults).  Plumbing fields (name, email, units,
goal_weight, water_goal, onboarding flag) are omitted: no modelled
computation reads them. -/
structure UserProfile where
  age : Option ℤ
  gender : Option String
  height_cm : Option ℚ
  current_weight : Option ℚ
  activity_level : Option String
  weight_loss_rate : Option ℚ
  calorie_target : ℤ
  protein_target : ℤ
  carbs_target : ℤ
  fat_target : ℤ
  bmr : Option ℤ
  tdee : Option ℤ
deriving DecidableEq, Repr

/-- The `ProfileUpdate` pydantic request model (server.py:73-88), every
field optional; `none` models an omitted field (the handler drops `None`
values from `update_data`). -/
structure ProfileUpdate where
  age : Option ℤ := none
  gender : Option String := none
  height_cm : Option ℚ := none
  current_weight : Option ℚ := none
  activity_level : Option String := none
  weight_loss_rate : Option ℚ := none
  calorie_target : Option ℤ := none
  protein_target : Option ℤ := none
  carbs_target : Option ℤ := none
  fat_target : Option ℤ := none
deriving DecidableEq, Repr

/-- The dict merge `{**user, **update_data}` (server.py:206): a field sent
in the request wins, otherwise the stored value is kept. -/
def mergeProfile (user : UserProfile) (upd : ProfileUpdate) : UserProfile :=
  { age := upd.age <|> user.age
    gender := upd.gender <|> user.gender
    height_cm := upd.height_cm <|> user.height_cm
    current_weight := upd.current_weight <|> user.current_weight
    activity_level := upd.activity_level <|> user.activity_level
    weight_loss_rate := upd.weight_loss_rate <|> user.weight_loss_rate
    calorie_target := upd.calorie_target.getD user.calorie_target
    protein_target := upd.protein_target.getD user.protein_target
    carbs_target := upd.carbs_target.getD user.carbs_target
    fat_target := upd.fat_target.getD user.fat_target
    bmr := user.bmr
    tdee := user.tdee }

/-- Python truthiness of `merged.get("age")`: falsy when absent/None or 0. -/
def truthyInt : Option ℤ → Bool
  | none => false
  | some n => n != 0

/-- Python truthiness of a string field: falsy when absent/None or empty. -/
def truthyStr : Option String → Bool
  | none => false
  | some s => s != ""

/-- Python truthiness of a float field: falsy when absent/None or 0.0. -/
def truthyRat : Option ℚ → Bool
  | none => false
  | some q => q != 0

/-- The recomputation gate (server.py:207):
`all(merged.get(f) for f in ["age", "gender", "height_cm", "current_weight"])`. -/
def hasRequiredFields (p : UserProfile) : Bool :=
  truthyInt p.age && truthyStr p.gender && truthyRat p.height_cm && truthyRat p.current_weight

/-- Mifflin-St Jeor BMR (`calculate_bmr`, server.py:234-239). -/
def calculate_bmr (gender : String) (weight_kg height_cm : ℚ) (age : ℤ) : ℚ :=
  if gender = "male" then 10 * weight_kg + 6.25 * height_cm - 5 * (age : ℚ) + 5
  else 10 * weight_kg + 6.25 * height_cm - 5 * (age : ℚ) - 161

/-- The activity-multiplier lookup
`activity_multipliers.get(merged.get("activity_level", "moderate"), 1.55)`
(server.py:209-213): an absent key yields `"moderate"`, i.e. `1.55`, and
any value outside the table falls back to the dict-get default `1.55`. -/
def activityMultiplier (lvl : Option String) : ℚ :=
  match lvl with
  | none => 1.55
  | some s =>
    if s = "sedentary" then 1.2
    else if s = "light" then 1.375
    else if s = "moderate" then 1.55
    else if s = "active" then 1.725
    else if s = "very_active" then 1.9
    else 1.55

/-- `protein_target = int((calorie_target * 0.30) / 4)` (server.py:219). -/
def proteinTargetOf (calorie_target : ℤ) : ℤ := pyInt ((calorie_target : ℚ) * 0.30 / 4)

/-- `carbs_target = int((calorie_target * 0.40) / 4)` (server.py:220). -/
def carbsTargetOf (calorie_target : ℤ) : ℤ := pyInt ((calorie_target : ℚ) * 0.40 / 4)

/-- `fat_target = int((calorie_target * 0.30) / 9)` (server.py:221). -/
def fatTargetOf (calorie_target : ℤ) : ℤ := pyInt ((calorie_target : ℚ) * 0.30 / 9)

/-- PUT `/profile` (`update_profile`, server.py:201-232): merge the request
into the stored profile; when the four required fields are all truthy,
recompute BMR, TDEE and the calorie/macro targets and overwrite them in the
result; otherwise store the merge unchanged.  Under the gate the four
`getD` defaults are never used, since truthiness guarantees `some`. -/
def update_profile (user : UserProfile) (upd : ProfileUpdate) : UserProfile :=
  let merged := mergeProfile user upd
  if hasRequiredFields merged then
    let bmr := calculate_bmr (merged.gender.getD "") (merged.current_weight.getD 0)
      (merged.height_cm.getD 0) (merged.age.getD 0)
    let tdee := bmr * activityMultiplier merged.activity_level
    let deficit := merged.weight_loss_rate.getD 1 * 500
    let calorie_target := max 1200 (pyInt (tdee - deficit))
    { merged with
      calorie_target := calorie_target
      protein_target := proteinTargetOf calorie_target
      carbs_target := carbsTargetOf calorie_target
      fat_target := fatTargetOf calorie_target
      bmr := some (pyInt bmr)
      tdee := some (pyInt tdee) }
  else merged

/-- Modelled from the spec (wording of claim C1): the recomputed target as
`max(1200, round(TDEE − weight_loss_rate × 500))` with mathematical
rounding.  Stated only for comparison against the code's truncation. -/
def specRound (q : ℚ) : ℤ := ⌊q + 1/2⌋

/-- Modelled from the spec (wording of claim C1): the full claimed formula
for the recomputed calorie target, used to exhibit the divergence from the
code. -/
def claimCalorieTargetRounded (gender : String) (wkg hcm : ℚ) (age : ℤ)
    (activity : Option String) (rate : ℚ) : ℤ :=
  max 1200 (specRound (calculate_bmr gender wkg hcm age * activityMultiplier activity
    - rate * 500))

/-- A profile populated the way registration plus onboarding would populate
it: all biometrics known, default targets, moderate activity, rate 1. -/
def baseUser : UserProfile :=
  { age := some 30
    gender := some "male"
    height_cm := some 178
    current_weight := some 80
    activity_level := some "moderate"
    weight_loss_rate := some 1
    calorie_target := 2000
    protein_target := 150
    carbs_target := 200
    fat_target := 67
    bmr := none
    tdee := none }

lemma pyInt_eq_floor {q : ℚ} (h : 0 ≤ q) : pyInt q = ⌊q⌋ := by
  rw [pyInt, if_neg (not_lt.mpr h)]

lemma update_profile_calorie_eq (user : UserProfile) (upd : ProfileUpdate)
    (a : ℤ) (g : String) (hcm wkg : ℚ)
    (ha : (mergeProfile user upd).age = some a) (ha0 : a ≠ 0)
    (hg : (mergeProfile user upd).gender = some g) (hg0 : g ≠ "")
    (hh : (mergeProfile user upd).height_cm = some hcm) (hh0 : hcm ≠ 0)
    (hw : (mergeProfile user upd).current_weight = some wkg) (hw0 : wkg ≠ 0) :
    (update_profile user upd).calorie_target
      = max 1200 (pyInt (calculate_bmr g wkg hcm a
          * activityMultiplier (mergeProfile user upd).activity_level
          - (mergeProfile user upd).weight_loss_rate.getD 1 * 500)) := by
  have hgate : hasRequiredFields (mergeProfile user upd) = true := by
    simp [hasRequiredFields, truthyInt, truthyStr, truthyRat, ha, hg, hh, hw,
      ha0, hg0, hh0, hw0]
  simp only [update_profile, hgate, if_true, ha, hg, hh, hw, Option.getD_some]

/-- C1: the claim as stated is false: the code truncates with `int()` where
the claim says `round`.  For a male user, 80 kg, 178 cm, age 30, moderate
activity, rate 1, TDEE − deficit = 2239.625: the code stores 2239 while the
claimed rounding formula gives 2240. -/
theorem calorie_target_not_rounded :
    (update_profile baseUser {}).calorie_target = 2239 ∧
    claimCalorieTargetRounded "male" 80 178 30 (some "moderate") 1 = 2240 ∧
    (2239 : ℤ) ≠ 2240 := by
  have hbmr : calculate_bmr "male" 80 178 30 = 3535/2 := by
    norm_num [calculate_bmr]
  have hact : activityMultiplier (some "moderate") = 1.55 := rfl
  have h155 : (1.55 : ℚ) = 31/20 := by norm_num
  have harg : (3535/2 : ℚ) * (31/20) - 1 * 500 = 17917/8 := by norm_num
  refine ⟨?_, ?_, by decide⟩
  · have hfloor : pyInt (17917/8 : ℚ) = 2239 := by
      rw [pyInt_eq_floor (by norm_num), Int.floor_eq_iff]
      norm_num
    have heq := update_profile_calorie_eq baseUser {} 30 "male" 178 80 rfl (by decide)
      rfl (by decide) rfl (by decide) rfl (by decide)
    have hal : (mergeProfile baseUser {}).activity_level = some "moderate" := rfl
    have hwl : (mergeProfile baseUser {}).weight_loss_rate = some 1 := rfl
    rw [heq, hal, hwl, Option.getD_some, hact, h155, hbmr, harg, hfloor]
    norm_num
  · have hs : specRound ((3535/2 : ℚ) * (31/20) - 1 * 500) = 2240 := by
      rw [specRound, show ((3535/2 : ℚ) * (31/20) - 1 * 500 + 1/2) = 17921/8 by norm_num,
        Int.floor_eq_iff]
      norm_num
    rw [claimCalorieTargetRounded, hbmr, hact, h155, hs]
    norm_num

/-- C1 (amended): whenever the merged profile passes the truthiness gate,
the stored calorie target is `max 1200 (int(TDEE − rate·500))` — `int()`
truncation, not rounding — with TDEE = Mifflin-St Jeor BMR times the
activity multiplier from the fixed table (default 1.55 for unknown or
missing levels), and the result is never below 1200 no matter how large the
rate is. -/
theorem calorie_target_spec :
    ∀ (user : UserProfile) (upd : ProfileUpdate) (a : ℤ) (g : String) (hcm wkg : ℚ),
      (mergeProfile user upd).age = some a → a ≠ 0 →
      (mergeProfile user upd).gender = some g → g ≠ "" →
      (mergeProfile user upd).height_cm = some hcm → hcm ≠ 0 →
      (mergeProfile user upd).current_weight = some wkg → wkg ≠ 0 →
      ((update_profile user upd).calorie_target
          = max 1200 (pyInt (calculate_bmr g wkg hcm a
              * activityMultiplier (mergeProfile user upd).activity_level
              - (mergeProfile user upd).weight_loss_rate.getD 1 * 500)) ∧
        1200 ≤ (update_profile user upd).calorie_target ∧
        (∀ s : String,
          s ∉ (["sedentary", "light", "moderate", "active", "very_active"] : List String) →
          activityMultiplier (some s) = 1.55) ∧
        activityMultiplier none = 1.55) := by
  intro user upd a g hcm wkg ha ha0 hg hg0 hh hh0 hw hw0
  have hmain := update_profile_calorie_eq user upd a g hcm wkg ha ha0 hg hg0 hh hh0 hw hw0
  refine ⟨hmain, ?_, ?_, rfl⟩
  · rw [hmain]
    exact le_max_left _ _
  · intro s hs
    simp only [List.mem_cons, List.not_mem_nil, or_false, not_or] at hs
    obtain ⟨h1, h2, h3, h4, h5⟩ := hs
    simp [activityMultiplier, h1, h2, h3, h4, h5]

/-- C1 witness: the amended theorem applied to `baseUser` with an empty
update; the floor conjunct is extracted. -/
theorem calorie_target_spec_witness :
    1200 ≤ (update_profile baseUser {}).calorie_target :=
  (calorie_target_spec baseUser {} 30 "male" 178 80 rfl (by decide) rfl (by decide)
    rfl (by decide) rfl (by decide)).2.1

lemma proteinTargetOf_natCast (n : ℕ) : proteinTargetOf (n : ℤ) = ((3 * n / 40 : ℕ) : ℤ) := by
  have hq : (((n : ℤ) : ℚ)) * 0.30 / 4 = ((3 * n : ℕ) : ℚ) / ((40 : ℕ) : ℚ) := by
    push_cast
    ring
  rw [proteinTargetOf, hq, pyInt_eq_floor (by positivity), Rat.floor_natCast_div_natCast]
  push_cast [Int.natCast_div]
  ring

lemma carbsTargetOf_natCast (n : ℕ) : carbsTargetOf (n : ℤ) = ((n / 10 : ℕ) : ℤ) := by
  have hq : (((n : ℤ) : ℚ)) * 0.40 / 4 = ((n : ℕ) : ℚ) / ((10 : ℕ) : ℚ) := by
    push_cast
    ring
  rw [carbsTargetOf, hq, pyInt_eq_floor (by positivity), Rat.floor_natCast_div_natCast]
  push_cast [Int.natCast_div]
  ring

lemma fatTargetOf_natCast (n : ℕ) : fatTargetOf (n : ℤ) = ((n / 30 : ℕ) : ℤ) := by
  have hq : (((n : ℤ) : ℚ)) * 0.30 / 9 = ((n : ℕ) : ℚ) / ((30 : ℕ) : ℚ) := by
    push_cast
    ring
  rw [fatTargetOf, hq, pyInt_eq_floor (by positivity), Rat.floor_natCast_div_natCast]
  push_cast [Int.natCast_div]
  ring

/-- C3: the claim as stated is false: the macro formulas are as claimed,
but at calorie target 1319 (≥ 1200) the caloric sum 4·98 + 4·131 + 9·43 =
1303 falls short of the target by 16 kcal, far beyond the claimed 3-kcal
tolerance. -/
theorem macro_drift_exceeds_three :
    (1200 : ℤ) ≤ 1319 ∧
    proteinTargetOf 1319 = 98 ∧ carbsTargetOf 1319 = 131 ∧ fatTargetOf 1319 = 43 ∧
    (1319 : ℤ) - (4 * proteinTargetOf 1319 + 4 * carbsTargetOf 1319 + 9 * fatTargetOf 1319)
      = 16 ∧
    ¬ ((1319 : ℤ) - (4 * proteinTargetOf 1319 + 4 * carbsTargetOf 1319 + 9 * fatTargetOf 1319)
      ≤ 3) := by
  have hp := proteinTargetOf_natCast 1319
  have hc := carbsTargetOf_natCast 1319
  have hf := fatTargetOf_natCast 1319
  norm_num at hp hc hf
  refine ⟨by norm_num, hp, hc, hf, by rw [hp, hc, hf]; norm_num, by rw [hp, hc, hf]; norm_num⟩

/-- C3 (amended): for every calorie target `C ≥ 1200` the truncated macro
targets reconstruct a caloric sum within `[C − 16, C]`; the drift bound 3
claimed by the spec is wrong, 16 is the tight bound (attained at 1319). -/
theorem macro_drift_bound :
    ∀ C : ℤ, 1200 ≤ C →
      0 ≤ C - (4 * proteinTargetOf C + 4 * carbsTargetOf C + 9 * fatTargetOf C) ∧
      C - (4 * proteinTargetOf C + 4 * carbsTargetOf C + 9 * fatTargetOf C) ≤ 16 := by
  intro C hC
  obtain ⟨n, rfl⟩ : ∃ n : ℕ, C = (n : ℤ) := ⟨C.toNat, (Int.toNat_of_nonneg (by linarith)).symm⟩
  rw [proteinTargetOf_natCast, carbsTargetOf_natCast, fatTargetOf_natCast]
  omega

/-- C3 witness: the drift bound applied at the concrete target 2000. -/
theorem macro_drift_bound_witness :
    0 ≤ (2000 : ℤ) - (4 * proteinTargetOf 2000 + 4 * carbsTargetOf 2000 + 9 * fatTargetOf 2000) ∧
    (2000 : ℤ) - (4 * proteinTargetOf 2000 + 4 * carbsTargetOf 2000 + 9 * fatTargetOf 2000)
      ≤ 16 :=
  macro_drift_bound 2000 (by norm_num)

/-- C9: the claim as stated is false: when a required field is missing the
recomputation is indeed skipped, but the stored targets are not necessarily
retained — the request body may set them explicitly (`ProfileUpdate`
exposes `calorie_target` etc.), and the merge applies them. -/
theorem targets_overridden_by_request :
    ({ baseUser with age := none } : UserProfile).calorie_target = 2000 ∧
    (update_profile { baseUser with age := none } { calorie_target := some 1800 }).calorie_target
      = 1800 ∧
    (1800 : ℤ) ≠ 2000 := by
  refine ⟨rfl, rfl, by decide⟩

/-- C9 (amended): when the merged profile fails the truthiness gate and the
request itself does not set any target field, the four stored targets are
retained unchanged — no derived value is computed from partial data. -/
theorem targets_retained_when_incomplete :
    ∀ (user : UserProfile) (upd : ProfileUpdate),
      hasRequiredFields (mergeProfile user upd) = false →
      upd.calorie_target = none → upd.protein_target = none →
      upd.carbs_target = none → upd.fat_target = none →
      (update_profile user upd).calorie_target = user.calorie_target ∧
      (update_profile user upd).protein_target = user.protein_target ∧
      (update_profile user upd).carbs_target = user.carbs_target ∧
      (update_profile user upd).fat_target = user.fat_target := by
  intro user upd hgate hct hpt hcarb hft
  have hskip : update_profile user upd = mergeProfile user upd := by
    simp only [update_profile, hgate]
    simp
  rw [hskip]
  simp [mergeProfile, hct, hpt, hcarb, hft]

/-- C9 witness: the amended theorem applied to a profile with unknown age
and an update touching no target field. -/
theorem targets_retained_when_incomplete_witness :
    (update_profile { baseUser with age := none } {}).calorie_target = 2000 ∧
    (update_profile { baseUser with age := none } {}).protein_target = 150 ∧
    (update_profile { baseUser with age := none } {}).carbs_target = 200 ∧
    (update_profile { baseUser with age := none } {}).fat_target = 67 :=
  targets_retained_when_incomplete { baseUser with age := none } {} rfl rfl rfl rfl rfl

/-- C10: the recomputation gate tests Python truthiness, not mere presence:
if any of age, height or weight is present but equal to zero (or the gender
string is present but empty), the update behaves exactly like the plain
merge, as if the field were absent. -/
theorem zero_field_skips_recompute :
    ∀ (user : UserProfile) (upd : ProfileUpdate),
      ((mergeProfile user upd).age = some 0 ∨
        (mergeProfile user upd).height_cm = some 0 ∨
        (mergeProfile user upd).current_weight = some 0 ∨
        (mergeProfile user upd).gender = some "") →
      update_profile user upd = mergeProfile user upd := by
  intro user upd hzero
  have hgate : hasRequiredFields (mergeProfile user upd) = false := by
    rcases hzero with h | h | h | h <;>
      simp [hasRequiredFields, truthyInt, truthyStr, truthyRat, h]
  simp [update_profile, hgate]

/-- C10 witness: a profile whose merged age is the literal 0 skips
recomputation even though every required field is present. -/
theorem zero_field_skips_recompute_witness :
    update_profile { baseUser with age := some 0 } {}
      = mergeProfile { baseUser with age := some 0 } {} :=
  zero_field_skips_recompute { baseUser with age := some 0 } {} (Or.inl rfl)

/-- The loop body of `calculate_streak` (server.py:512-524), abstracted over
the per-day predicate: `hasLog k` models
`count_documents({user_id, date: today − k days}) > 0`.  In the source the
walking date and the streak counter advance together, so the current streak
value doubles as the day offset being checked. -/
def streakLoop (hasLog : ℕ → Bool) : ℕ → ℕ → ℕ
  | 0, streak => streak
  | fuel + 1, streak => if hasLog streak then streakLoop hasLog fuel (streak + 1) else streak

/-- `calculate_streak` (server.py:512-524): walk backward from today, at
most 365 iterations, counting consecutive days with at least one food log. -/
def calculate_streak (hasLog : ℕ → Bool) : ℕ := streakLoop hasLog 365 0

lemma streakLoop_spec (hasLog : ℕ → Bool) :
    ∀ fuel s : ℕ, (∀ k, k < s → hasLog k = true) →
      s ≤ streakLoop hasLog fuel s ∧
      streakLoop hasLog fuel s ≤ s + fuel ∧
      (∀ k, k < streakLoop hasLog fuel s → hasLog k = true) ∧
      (streakLoop hasLog fuel s < s + fuel → hasLog (streakLoop hasLog fuel s) = false) := by
  intro fuel
  induction fuel with
  | zero =>
    intro s hs
    simp only [streakLoop]
    exact ⟨le_refl s, by omega, hs, fun h => absurd h (by omega)⟩
  | succ n ih =>
    intro s hs
    by_cases h : hasLog s = true
    · have hs1 : ∀ k, k < s + 1 → hasLog k = true := by
        intro k hk
        rcases Nat.lt_succ_iff_lt_or_eq.mp hk with hk1 | rfl
        · exact hs k hk1
        · exact h
      obtain ⟨h1, h2, h3, h4⟩ := ih (s + 1) hs1
      simp only [streakLoop, h, if_true]
      exact ⟨by omega, by omega, h3, fun hlt => h4 (by omega)⟩
    · simp only [streakLoop, h, Bool.false_eq_true, if_false]
      exact ⟨le_refl s, by omega, hs, fun _ => by simp [eq_false_of_ne_true h]⟩

set_option maxRecDepth 10000 in
/-- C6: the streak is at most 365, every day offset below it has a food log,
and — when the cap is not hit — the day right after the streak has none (so
the walk stopped at the first gap, and a logless today gives 0).  The two
spec examples are included: no log on any day gives 0, and logs on exactly
today and yesterday give 2. -/
theorem streak_characterization :
    (∀ hasLog : ℕ → Bool,
      calculate_streak hasLog ≤ 365 ∧
      (∀ k, k < calculate_streak hasLog → hasLog k = true) ∧
      (calculate_streak hasLog < 365 → hasLog (calculate_streak hasLog) = false)) ∧
    (∀ hasLog : ℕ → Bool, hasLog 0 = false → calculate_streak hasLog = 0) ∧
    calculate_streak (fun k => decide (k < 2)) = 2 := by
  refine ⟨?_, ?_, ?_⟩
  · intro hasLog
    have h := streakLoop_spec hasLog 365 0 (fun k hk => absurd hk (Nat.not_lt_zero k))
    exact ⟨by simpa using h.2.1, h.2.2.1, fun hlt => h.2.2.2 (by simpa using hlt)⟩
  · intro hasLog h0
    have hstep : streakLoop hasLog 365 0
        = if hasLog 0 then streakLoop hasLog 364 1 else 0 := rfl
    rw [calculate_streak, hstep, h0]
    simp
  · have e0 : streakLoop (fun k => decide (k < 2)) 365 0
        = streakLoop (fun k => decide (k < 2)) 364 1 := rfl
    have e1 : streakLoop (fun k => decide (k < 2)) 364 1
        = streakLoop (fun k => decide (k < 2)) 363 2 := rfl
    have e2 : streakLoop (fun k => decide (k < 2)) 363 2 = 2 := rfl
    rw [calculate_streak, e0, e1, e2]

/-- C6 witness: the characterization applied at two concrete predicates. -/
theorem streak_characterization_witness :
    calculate_streak (fun _ => false) = 0 ∧ (fun (k : ℕ) => decide (k < 1)) 0 = true :=
  ⟨streak_characterization.2.1 (fun _ => false) rfl,
    (streak_characterization.1 (fun k => decide (k < 1))).2.1 0 (by decide)⟩

/-- The weekly-stats view (`get_weekly_stats`, server.py:528-581), reduced
to the fields the aggregation computes from food logs; the per-day display
rows (date label, weekday name, water) and the weight-change field read
other collections and do not interact with these aggregates. -/
structure WeeklyView where
  avg_daily_calories : ℚ
  days_on_track : ℕ
  total_calories : ℚ
deriving DecidableEq, Repr

/-- GET `/stats/weekly` (server.py:537-563): loop over the 7 calendar days
ending today (oldest first, `dayLogs i` holding the calorie values of the
food logs fetched for day `i`), accumulating the calorie total and the
on-track count; the average always divides by 7 and both displayed totals
go through Python `round(·, 1)`. -/
def get_weekly_stats (dayLogs : ℕ → List ℚ) (calorie_target : ℤ) : WeeklyView :=
  let step : (ℚ × ℕ) → ℕ → (ℚ × ℕ) := fun acc i =>
    let day_cals := (dayLogs i).sum
    (acc.1 + day_cals,
      if 0 < day_cals ∧ day_cals ≤ (calorie_target : ℚ) then acc.2 + 1 else acc.2)
  let totals := (List.range 7).foldl step (0, 0)
  { avg_daily_calories := pyRound1 (totals.1 / 7)
    days_on_track := totals.2
    total_calories := pyRound1 totals.1 }

lemma pyRound1_eq_down {q : ℚ} {f : ℤ} (hf : ⌊q * 10⌋ = f) (h : q * 10 - f < 1/2) :
    pyRound1 q = (f : ℚ) / 10 := by
  simp only [pyRound1, hf]
  rw [if_neg (by linarith), if_pos h]

lemma pyRound1_eq_up {q : ℚ} {f : ℤ} (hf : ⌊q * 10⌋ = f) (h : 1/2 < q * 10 - f) :
    pyRound1 q = ((f + 1 : ℤ) : ℚ) / 10 := by
  simp only [pyRound1, hf]
  rw [if_pos h]

/-- C7: the claim as stated is false in its average clause: with a single
100-calorie entry in the week, the weekly total is 100 but the reported
average is `round(100/7, 1) = 14.3 ≠ 100/7` — the division is by 7, but the
result is rounded to one decimal. -/
theorem weekly_avg_not_exact :
    (get_weekly_stats (fun i => if i = 0 then [100] else []) 2000).total_calories = 100 ∧
    (get_weekly_stats (fun i => if i = 0 then [100] else []) 2000).avg_daily_calories
      = 143/10 ∧
    (143/10 : ℚ) ≠ 100 / 7 := by
  have hrange : List.range 7 = [0, 1, 2, 3, 4, 5, 6] := rfl
  have htot : ((List.range 7).foldl
      (fun (acc : ℚ × ℕ) i =>
        let day_cals := ((fun i => if i = 0 then [(100 : ℚ)] else []) i).sum
        (acc.1 + day_cals,
          if 0 < day_cals ∧ day_cals ≤ ((2000 : ℤ) : ℚ) then acc.2 + 1 else acc.2))
      (0, 0)).1 = 100 := by
    rw [hrange]
    norm_num
  have hf100 : ⌊(100 : ℚ) * 10⌋ = (1000 : ℤ) := by
    rw [show (100 : ℚ) * 10 = ((1000 : ℤ) : ℚ) by norm_num, Int.floor_intCast]
  have hf7 : ⌊(100 : ℚ) / 7 * 10⌋ = (142 : ℤ) := by
    rw [show (100 : ℚ) / 7 * 10 = 1000 / 7 by ring, Int.floor_eq_iff]
    norm_num
  refine ⟨?_, ?_, by norm_num⟩
  · show pyRound1 ((List.range 7).foldl _ (0, 0)).1 = 100
    rw [htot, pyRound1_eq_down hf100 (by norm_num)]
    norm_num
  · show pyRound1 (((List.range 7).foldl _ (0, 0)).1 / 7) = 143/10
    rw [htot, pyRound1_eq_up hf7 (by norm_num)]
    norm_num

set_option maxHeartbeats 1600000 in
/-- C7 (amended): a day is counted on-track exactly when its calorie sum
lies in the half-open interval (0, target]; the weekly total and the
average (total / 7, dividing by 7 even for empty days) are reported after
Python rounding to one decimal.  The spec's concrete cases hold: with
target 2000, a lone 2000-calorie day counts, a 2001-calorie day does not,
and a zero-calorie day never does. -/
theorem weekly_stats_spec :
    (∀ (dayLogs : ℕ → List ℚ) (target : ℤ),
      (get_weekly_stats dayLogs target).total_calories
        = pyRound1 ((dayLogs 0).sum + (dayLogs 1).sum + (dayLogs 2).sum + (dayLogs 3).sum
            + (dayLogs 4).sum + (dayLogs 5).sum + (dayLogs 6).sum) ∧
      (get_weekly_stats dayLogs target).avg_daily_calories
        = pyRound1 (((dayLogs 0).sum + (dayLogs 1).sum + (dayLogs 2).sum + (dayLogs 3).sum
            + (dayLogs 4).sum + (dayLogs 5).sum + (dayLogs 6).sum) / 7) ∧
      (get_weekly_stats dayLogs target).days_on_track
        = (List.range 7).countP
            (fun i => decide (0 < (dayLogs i).sum ∧ (dayLogs i).sum ≤ (target : ℚ)))) ∧
    (get_weekly_stats (fun i => if i = 6 then [2000] else []) 2000).days_on_track = 1 ∧
    (get_weekly_stats (fun i => if i = 6 then [2001] else []) 2000).days_on_track = 0 ∧
    (get_weekly_stats (fun i => if i = 6 then [0] else []) 2000).days_on_track = 0 := by
  have hrange : List.range 7 = [0, 1, 2, 3, 4, 5, 6] := rfl
  refine ⟨?_, ?_, ?_, ?_⟩
  · intro dayLogs target
    refine ⟨?_, ?_, ?_⟩
    · simp only [get_weekly_stats, hrange, List.foldl_cons, List.foldl_nil]
      congr 1
      ring
    · simp only [get_weekly_stats, hrange, List.foldl_cons, List.foldl_nil]
      congr 1
      ring
    · simp only [get_weekly_stats, hrange, List.foldl_cons, List.foldl_nil,
        List.countP_cons, List.countP_nil, decide_eq_true_eq]
      split_ifs <;> omega
  · simp only [get_weekly_stats, hrange, List.foldl_cons, List.foldl_nil]
    norm_num
  · simp only [get_weekly_stats, hrange, List.foldl_cons, List.foldl_nil]
    norm_num
  · simp only [get_weekly_stats, hrange, List.foldl_cons, List.foldl_nil]
    norm_num

/-- A food-log document (server.py:283-298).  The stored macro values are
already quantity-scaled (and rounded to one decimal) at creation; `fiber`,
`serving`, `quantity`, the UUID and `created_at` are carried but read by no
modelled computation and are omitted. -/
structure FoodLog where
  user_id : String
  date : String
  food_name : String
  calories : ℚ
  protein : ℚ
  carbs : ℚ
  fat : ℚ
  meal_type : String
  logged_at : String
deriving DecidableEq, Repr

/-- The dashboard's food-log fetch (server.py:474-477):
`find({user_id, date}).sort("logged_at", 1).to_list(100)`, modelled as
filtering the collection, sorting by the `logged_at` timestamp string
ascending, and keeping at most the first 100 documents (the `to_list(100)`
cap). -/
def fetchFoodLogs (food_logs_db : List FoodLog) (uid day : String) : List FoodLog :=
  ((food_logs_db.filter fun f => f.user_id == uid && f.date == day).mergeSort
    (fun a b => decide (a.logged_at ≤ b.logged_at))).take 100

/-- The dashboard view (server.py:495-510): consumed/target pairs, the
water total, the raw ordered entry list, the streak and the meal buckets. -/
structure DashboardView where
  date : String
  calories_consumed : ℚ
  calorie_target : ℤ
  protein_consumed : ℚ
  protein_target : ℤ
  carbs_consumed : ℚ
  carbs_target : ℤ
  fat_consumed : ℚ
  fat_target : ℤ
  water_consumed_ml : ℤ
  food_logs : List FoodLog
  streak : ℕ
  breakfast : List FoodLog
  lunch : List FoodLog
  dinner : List FoodLog
  snack : List FoodLog
deriving DecidableEq, Repr

/-- GET `/dashboard` (`get_dashboard`, server.py:468-510): sum the macros
over the day's fetched entries (through Python `round(·, 1)` for display),
read the water total (0 when the document is absent), and bucket the
entries by exact `meal_type` match.  The streak, computed separately by
`calculate_streak`, is passed in. -/
def get_dashboard (food_logs_db : List FoodLog) (water : Option WaterRecord)
    (uid day : String) (user : UserProfile) (streak : ℕ) : DashboardView :=
  let food_logs := fetchFoodLogs food_logs_db uid day
  { date := day
    calories_consumed := pyRound1 (food_logs.map FoodLog.calories).sum
    calorie_target := user.calorie_target
    protein_consumed := pyRound1 (food_logs.map FoodLog.protein).sum
    protein_target := user.protein_target
    carbs_consumed := pyRound1 (food_logs.map FoodLog.carbs).sum
    carbs_target := user.carbs_target
    fat_consumed := pyRound1 (food_logs.map FoodLog.fat).sum
    fat_target := user.fat_target
    water_consumed_ml := (match water with | some w => w.total_ml | none => 0)
    food_logs := food_logs
    streak := streak
    breakfast := food_logs.filter fun f => f.meal_type == "breakfast"
    lunch := food_logs.filter fun f => f.meal_type == "lunch"
    dinner := food_logs.filter fun f => f.meal_type == "dinner"
    snack := food_logs.filter fun f => f.meal_type == "snack" }

/-- A rational that is a whole number of tenths.  Every macro value stored
by `create_food_log` has this form, since creation applies `round(·, 1)`. -/
def isTenth (q : ℚ) : Prop := ∃ n : ℤ, q = (n : ℚ) / 10

lemma isTenth_sum : ∀ {l : List ℚ}, (∀ q ∈ l, isTenth q) → isTenth l.sum := by
  intro l
  induction l with
  | nil => exact fun _ => ⟨0, by norm_num⟩
  | cons a t ih =>
    intro h
    obtain ⟨n, hn⟩ := h a (List.mem_cons_self a t)
    obtain ⟨m, hm⟩ := ih fun q hq => h q (List.mem_cons_of_mem a hq)
    refine ⟨n + m, ?_⟩
    rw [List.sum_cons, hn, hm]
    push_cast
    ring

lemma pyRound1_isTenth {q : ℚ} (h : isTenth q) : pyRound1 q = q := by
  obtain ⟨n, rfl⟩ := h
  have h10 : ((n : ℚ) / 10) * 10 = (n : ℚ) := by
    field_simp
  have hf : ⌊((n : ℚ) / 10) * 10⌋ = n := by
    rw [h10, Int.floor_intCast]
  rw [pyRound1_eq_down hf]
  rw [h10]
  norm_num

/-- A day carrying 101 food-log entries for one user, each worth 10 kcal:
more entries than the dashboard's `to_list(100)` fetch cap returns. -/
def capEntry : FoodLog :=
  { user_id := "u1"
    date := "2025-01-01"
    food_name := "protein bar"
    calories := 10
    protein := 0
    carbs := 0
    fat := 0
    meal_type := "snack"
    logged_at := "t0" }

/-- The food-log collection holding those 101 entries. -/
def manyLogs : List FoodLog := List.replicate 101 capEntry

/-- C8: the claim as stated is false: the fetch is capped at 100 documents
(`to_list(100)`, server.py:477).  On a day with 101 logged 10-kcal entries
the dashboard's raw list holds only 100 of them — it is not a permutation
of the day's entries — and the calorie total sums those 100 (giving 1000),
not all 101 (1010). -/
theorem dashboard_fetch_capped :
    (manyLogs.filter fun f => f.user_id == "u1" && f.date == "2025-01-01").length = 101 ∧
    (get_dashboard manyLogs none "u1" "2025-01-01" baseUser 0).food_logs.length = 100 ∧
    ¬ (get_dashboard manyLogs none "u1" "2025-01-01" baseUser 0).food_logs.Perm
        (manyLogs.filter fun f => f.user_id == "u1" && f.date == "2025-01-01") ∧
    (get_dashboard manyLogs none "u1" "2025-01-01" baseUser 0).calories_consumed = 1000 ∧
    ((manyLogs.filter fun f => f.user_id == "u1" && f.date == "2025-01-01").map
        FoodLog.calories).sum = 1010 := by
  have hfil : manyLogs.filter (fun f => f.user_id == "u1" && f.date == "2025-01-01")
      = manyLogs := by
    apply List.filter_eq_self.mpr
    intro a ha
    rw [manyLogs] at ha
    rw [List.eq_of_mem_replicate ha]
    rfl
  have hms : manyLogs.mergeSort (fun a b => decide (a.logged_at ≤ b.logged_at))
      = manyLogs := by
    have hperm := List.mergeSort_perm manyLogs (fun a b => decide (a.logged_at ≤ b.logged_at))
    have hlen : (manyLogs.mergeSort (fun a b => decide (a.logged_at ≤ b.logged_at))).length
        = 101 := by
      rw [hperm.length_eq, manyLogs, List.length_replicate]
    have hmem : ∀ b ∈ manyLogs.mergeSort (fun a b => decide (a.logged_at ≤ b.logged_at)),
        b = capEntry := by
      intro b hb
      have hb2 : b ∈ manyLogs := hperm.mem_iff.mp hb
      rw [manyLogs] at hb2
      exact List.eq_of_mem_replicate hb2
    have hrep := List.eq_replicate_of_mem hmem
    rw [hlen] at hrep
    rw [hrep, manyLogs]
  have hfetch : fetchFoodLogs manyLogs "u1" "2025-01-01" = List.replicate 100 capEntry := by
    rw [fetchFoodLogs, hfil, hms, manyLogs, List.take_replicate,
      show ((100 : ℕ) ⊓ 101) = 100 from rfl]
  have hfl : (get_dashboard manyLogs none "u1" "2025-01-01" baseUser 0).food_logs
      = fetchFoodLogs manyLogs "u1" "2025-01-01" := rfl
  have hten : (100 : ℕ) • (10 : ℚ) = 1000 := by
    rw [nsmul_eq_mul]
    norm_num
  refine ⟨?_, ?_, ?_, ?_, ?_⟩
  · rw [hfil, manyLogs, List.length_replicate]
  · rw [hfl, hfetch, List.length_replicate]
  · intro hperm
    have hlens := hperm.length_eq
    rw [hfl, hfetch, hfil, manyLogs, List.length_replicate, List.length_replicate] at hlens
    exact absurd hlens (by decide)
  · have hcal : (get_dashboard manyLogs none "u1" "2025-01-01" baseUser 0).calories_consumed
        = pyRound1 ((fetchFoodLogs manyLogs "u1" "2025-01-01").map FoodLog.calories).sum := rfl
    rw [hcal, hfetch, List.map_replicate, List.sum_replicate,
      show capEntry.calories = (10 : ℚ) from rfl, hten,
      pyRound1_isTenth ⟨10000, by norm_num⟩]
  · rw [hfil, manyLogs, List.map_replicate, List.sum_replicate,
      show capEntry.calories = (10 : ℚ) from rfl, nsmul_eq_mul]
    norm_num

/-- C8 (amended): the dashboard's entry list is the first 100 of the day's
(user, day)-filtered logs sorted by timestamp ascending — a permutation of
all of them exactly when the day holds at most 100 entries, the
`to_list(100)` cap of the fetch; each macro total is the plain sum over the
fetched entries (no re-scaling — the `round(·, 1)` applied for display is
the identity on sums of stored one-decimal values); the four meal buckets
select fetched entries by exact `meal_type` match, so an entry with an
unrecognized `meal_type` lands in no bucket while still appearing in the
raw list and the totals; and an absent water document yields a water total
of 0, not an error. -/
theorem dashboard_spec :
    ∀ (food_logs_db : List FoodLog) (water : Option WaterRecord) (uid day : String)
      (user : UserProfile) (streak : ℕ),
      (∀ f ∈ fetchFoodLogs food_logs_db uid day,
        isTenth f.calories ∧ isTenth f.protein ∧ isTenth f.carbs ∧ isTenth f.fat) →
      ((get_dashboard food_logs_db water uid day user streak).food_logs
          = fetchFoodLogs food_logs_db uid day ∧
        (fetchFoodLogs food_logs_db uid day).length
          = min 100 (food_logs_db.filter fun f => f.user_id == uid && f.date == day).length ∧
        ((food_logs_db.filter fun f => f.user_id == uid && f.date == day).length ≤ 100 →
          (fetchFoodLogs food_logs_db uid day).Perm
            (food_logs_db.filter fun f => f.user_id == uid && f.date == day)) ∧
        List.Pairwise (fun a b => a.logged_at ≤ b.logged_at)
          (get_dashboard food_logs_db water uid day user streak).food_logs ∧
        (get_dashboard food_logs_db water uid day user streak).calories_consumed
          = ((fetchFoodLogs food_logs_db uid day).map FoodLog.calories).sum ∧
        (get_dashboard food_logs_db water uid day user streak).protein_consumed
          = ((fetchFoodLogs food_logs_db uid day).map FoodLog.protein).sum ∧
        (get_dashboard food_logs_db water uid day user streak).carbs_consumed
          = ((fetchFoodLogs food_logs_db uid day).map FoodLog.carbs).sum ∧
        (get_dashboard food_logs_db water uid day user streak).fat_consumed
          = ((fetchFoodLogs food_logs_db uid day).map FoodLog.fat).sum ∧
        (get_dashboard food_logs_db water uid day user streak).breakfast
          = (fetchFoodLogs food_logs_db uid day).filter (fun f => f.meal_type == "breakfast") ∧
        (get_dashboard food_logs_db water uid day user streak).lunch
          = (fetchFoodLogs food_logs_db uid day).filter (fun f => f.meal_type == "lunch") ∧
        (get_dashboard food_logs_db water uid day user streak).dinner
          = (fetchFoodLogs food_logs_db uid day).filter (fun f => f.meal_type == "dinner") ∧
        (get_dashboard food_logs_db water uid day user streak).snack
          = (fetchFoodLogs food_logs_db uid day).filter (fun f => f.meal_type == "snack") ∧
        (∀ f ∈ fetchFoodLogs food_logs_db uid day,
          f.meal_type ∉ (["breakfast", "lunch", "dinner", "snack"] : List String) →
          f ∉ (get_dashboard food_logs_db water uid day user streak).breakfast ∧
          f ∉ (get_dashboard food_logs_db water uid day user streak).lunch ∧
          f ∉ (get_dashboard food_logs_db water uid day user streak).dinner ∧
          f ∉ (get_dashboard food_logs_db water uid day user streak).snack) ∧
        (water = none →
          (get_dashboard food_logs_db water uid day user streak).water_consumed_ml = 0)) := by
  intro food_logs_db water uid day user streak h
  have hsum : ∀ proj : FoodLog → ℚ, (∀ f ∈ fetchFoodLogs food_logs_db uid day, isTenth (proj f)) →
      pyRound1 ((fetchFoodLogs food_logs_db uid day).map proj).sum
        = ((fetchFoodLogs food_logs_db uid day).map proj).sum := by
    intro proj hp
    apply pyRound1_isTenth
    apply isTenth_sum
    intro q hq
    obtain ⟨f, hf, rfl⟩ := List.mem_map.mp hq
    exact hp f hf
  have hnotbucket : ∀ (f : FoodLog) (m : String), f.meal_type ≠ m →
      f ∉ (fetchFoodLogs food_logs_db uid day).filter (fun g => g.meal_type == m) := by
    intro f m hne hmem
    rw [List.mem_filter] at hmem
    exact hne (by simpa using hmem.2)
  refine ⟨rfl, ?_, ?_, ?_, hsum _ (fun f hf => (h f hf).1),
    hsum _ (fun f hf => (h f hf).2.1), hsum _ (fun f hf => (h f hf).2.2.1),
    hsum _ (fun f hf => (h f hf).2.2.2), rfl, rfl, rfl, rfl, ?_, ?_⟩
  · have hml := (List.mergeSort_perm
      (food_logs_db.filter fun f => f.user_id == uid && f.date == day)
      (fun a b => decide (a.logged_at ≤ b.logged_at))).length_eq
    simp only [fetchFoodLogs, List.length_take, hml]
  · intro hlen
    have hperm := List.mergeSort_perm
      (food_logs_db.filter fun f => f.user_id == uid && f.date == day)
      (fun a b => decide (a.logged_at ≤ b.logged_at))
    simp only [fetchFoodLogs]
    rw [List.take_of_length_le (by rw [hperm.length_eq]; exact hlen)]
    exact hperm
  · have hsorted := @List.sorted_mergeSort FoodLog
      (fun a b => decide (a.logged_at ≤ b.logged_at))
      (fun a b c hab hbc => by
        simp only [decide_eq_true_eq] at *
        exact le_trans hab hbc)
      (fun a b => by
        simpa [Bool.or_eq_true, decide_eq_true_eq] using le_total a.logged_at b.logged_at)
      (food_logs_db.filter fun f => f.user_id == uid && f.date == day)
    exact (List.Pairwise.sublist (List.take_sublist 100 _) hsorted).imp
      fun hab => by simpa using hab
  · intro f hf hm
    simp only [List.mem_cons, List.not_mem_nil, or_false, not_or] at hm
    exact ⟨hnotbucket f _ hm.1, hnotbucket f _ hm.2.1,
      hnotbucket f _ hm.2.2.1, hnotbucket f _ hm.2.2.2⟩
  · intro hw
    subst hw
    rfl

/-- C8 witness: the dashboard theorem applied to an empty collection (which
satisfies the 100-entry cap, so the fetched list is a permutation of the
whole day's filter) and an absent water document. -/
theorem dashboard_spec_witness :
    (get_dashboard [] none "u1" "2025-01-01" baseUser 0).food_logs
      = fetchFoodLogs [] "u1" "2025-01-01" ∧
    (fetchFoodLogs [] "u1" "2025-01-01").Perm
      (([] : List FoodLog).filter fun f => f.user_id == "u1" && f.date == "2025-01-01") ∧
    (get_dashboard [] none "u1" "2025-01-01" baseUser 0).water_consumed_ml = 0 :=
  ⟨(dashboard_spec [] none "u1" "2025-01-01" baseUser 0
      (by simp [fetchFoodLogs])).1,
    (dashboard_spec [] none "u1" "2025-01-01" baseUser 0
      (by simp [fetchFoodLogs])).2.2.1 (by simp),
    (dashboard_spec [] none "u1" "2025-01-01" baseUser 0
      (by simp [fetchFoodLogs])).2.2.2.2.2.2.2.2.2.2.2.2.2 rfl⟩

end DietLog
